import Mathlib

/-!
Shallow embedding of the risk-assessment core of the ops-guide-ai repository
(src/riskAssessment/approval_manager.py, risk_engine.py, policy_validator.py),
together with theorems settling the frozen claims about it.

Modelling conventions:
* Python strings are Lean `String`; `datetime` instants are `Int` (seconds);
  `timedelta(hours=h)` is `3600 * h` seconds; `datetime.utcnow()` is passed in
  explicitly as a `now : Int` parameter (the hidden clock input made explicit).
* Python floats are `ℚ` (all literals in the source are exactly representable).
* Python dicts keyed by strings are association lists (first match wins, as in
  CPython where keys are unique); the approval-policies dict, whose four keys
  are fixed by the constructor and never added to or removed, is a structure
  with one field per key.
* `list(set(xs))` returns the distinct elements of `xs` in an unspecified
  order; it is embedded as `List.eraseDups`, and every claim about the result
  is stated up to membership / set equality only.
* Python's in-place `list.extend` on a list stored inside the policy dict is
  embedded by threading the manager state: `_get_eligible_approvers` returns
  the updated policy table alongside its result, exactly mirroring the
  aliasing in the source.
-/

namespace OpsGuide

/-- ApprovalStatus enum from approval_manager.py. -/
inductive ApprovalStatus where
  | PENDING
  | APPROVED
  | REJECTED
  | EXPIRED
  | CANCELLED
deriving DecidableEq, Repr

/-- ApprovalRequest record from approval_manager.py. `created_at`, `expires_at`
and `approved_at` are UTC instants in seconds. -/
structure ApprovalRequest where
  request_id : String
  operation_summary : String
  risk_level : String
  requester : String
  approvers : List String
  status : ApprovalStatus
  created_at : Int
  expires_at : Int
  approved_by : Option String
  approved_at : Option Int
  rejection_reason : Option String
deriving DecidableEq, Repr

/-- One entry of the approval_policies dict. The LOW entry has no
"eligible_approvers" key, hence the `Option`. -/
structure Policy where
  required : Bool
  approvers_needed : Nat
  timeout_hours : Nat
  eligible_approvers : Option (List String)
deriving DecidableEq, Repr

/-- The approval_policies dict: its four keys are fixed at construction, only
the eligible-approver lists inside are ever mutated (by the aliased extend in
_get_eligible_approvers). -/
structure Policies where
  low : Policy
  medium : Policy
  high : Policy
  critical : Policy
deriving DecidableEq, Repr

/-- Python dict lookup approval_policies.get(key) on the four fixed keys. -/
def Policies.get (p : Policies) (key : String) : Option Policy :=
  if key = "LOW" then some p.low
  else if key = "MEDIUM" then some p.medium
  else if key = "HIGH" then some p.high
  else if key = "CRITICAL" then some p.critical
  else none

/-- The table literal in ApprovalManager.__init__. -/
def initialPolicies : Policies :=
  { low := { required := false, approvers_needed := 0, timeout_hours := 0,
             eligible_approvers := none }
    medium := { required := true, approvers_needed := 1, timeout_hours := 24,
                eligible_approvers := some ["ops_lead", "senior_engineer"] }
    high := { required := true, approvers_needed := 2, timeout_hours := 12,
              eligible_approvers := some ["ops_manager", "engineering_manager"] }
    critical := { required := true, approvers_needed := 2, timeout_hours := 4,
                  eligible_approvers := some ["ops_director", "cto", "vp_engineering"] } }

/-- Association-list lookup: dict.get(key) for the approval_requests store. -/
def lookupStore (store : List (String × ApprovalRequest)) (key : String) :
    Option ApprovalRequest :=
  match store with
  | [] => none
  | (k, v) :: rest => if key = k then some v else lookupStore rest key

/-- Association-list write: store[key] = value (overwrite or append). -/
def insertStore (store : List (String × ApprovalRequest)) (key : String)
    (v : ApprovalRequest) : List (String × ApprovalRequest) :=
  match store with
  | [] => [(key, v)]
  | (k, w) :: rest =>
      if key = k then (k, v) :: rest else (k, w) :: insertStore rest key v

/-- Mutable state of an ApprovalManager instance: the (mutated-in-place)
policy table and the approval_requests dict. -/
structure ManagerState where
  approval_policies : Policies
  approval_requests : List (String × ApprovalRequest)
deriving Repr

/-- A freshly constructed ApprovalManager. -/
def initialManager : ManagerState :=
  { approval_policies := initialPolicies, approval_requests := [] }

/-- ApprovalManager._get_eligible_approvers. Returns the (deduplicated)
approver list and the possibly mutated manager state: when environment is
"prod" and risk_level is the string "HIGH" or "CRITICAL", the source extends
the list object stored inside the policy table in place, so the extension is
persisted into the table. When the policy has no "eligible_approvers" key the
default ["ops_manager"] is a fresh list and no store mutation is visible. -/
def get_eligible_approvers (st : ManagerState) (risk_level environment : String) :
    List String × ManagerState :=
  let policy := (st.approval_policies.get risk_level).getD st.approval_policies.high
  let extendHappens :=
    environment = "prod" ∧ (risk_level = "HIGH" ∨ risk_level = "CRITICAL")
  match policy.eligible_approvers with
  | none =>
      let base := ["ops_manager"]
      let base := if extendHappens then base ++ ["cto", "vp_engineering"] else base
      (base.eraseDups, st)
  | some base =>
      if extendHappens then
        let newList := base ++ ["cto", "vp_engineering"]
        let ps := st.approval_policies
        let ps :=
          if risk_level = "HIGH" then
            { ps with high := { ps.high with eligible_approvers := some newList } }
          else
            { ps with critical := { ps.critical with eligible_approvers := some newList } }
        (newList.eraseDups, { st with approval_policies := ps })
      else
        (base.eraseDups, st)

/-- ApprovalManager.create_approval_request. `now` is datetime.utcnow(). -/
def create_approval_request (st : ManagerState)
    (request_id operation_summary risk_level requester environment : String)
    (now : Int) : Option ApprovalRequest × ManagerState :=
  let policy := (st.approval_policies.get risk_level).getD st.approval_policies.high
  if !policy.required then
    (none, st)
  else
    let p := get_eligible_approvers st risk_level environment
    let eligible := p.1
    let st := p.2
    let expires_at := now + 3600 * (policy.timeout_hours : Int)
    let req : ApprovalRequest :=
      { request_id := request_id
        operation_summary := operation_summary
        risk_level := risk_level
        requester := requester
        approvers := eligible
        status := ApprovalStatus.PENDING
        created_at := now
        expires_at := expires_at
        approved_by := none
        approved_at := none
        rejection_reason := none }
    (some req,
     { st with approval_requests := insertStore st.approval_requests request_id req })

/-- ApprovalManager.check_approval_status. Returns the record (after the
read-time expiry transition, when it fires) and the updated state. -/
def check_approval_status (st : ManagerState) (request_id : String) (now : Int) :
    Option ApprovalRequest × ManagerState :=
  match lookupStore st.approval_requests request_id with
  | none => (none, st)
  | some req =>
      if now > req.expires_at ∧ req.status = ApprovalStatus.PENDING then
        let req := { req with status := ApprovalStatus.EXPIRED }
        (some req,
         { st with approval_requests := insertStore st.approval_requests request_id req })
      else
        (some req, st)

/-- ApprovalManager.approve_request. Guards, in source order: record present,
status PENDING, approver in the stored approver list, not past expiry (past
expiry flips the record to EXPIRED and fails). -/
def approve_request (st : ManagerState) (request_id approver : String)
    (now : Int) : Bool × ManagerState :=
  match lookupStore st.approval_requests request_id with
  | none => (false, st)
  | some req =>
      if req.status ≠ ApprovalStatus.PENDING then (false, st)
      else if approver ∉ req.approvers then (false, st)
      else if now > req.expires_at then
        let req := { req with status := ApprovalStatus.EXPIRED }
        (false,
         { st with approval_requests := insertStore st.approval_requests request_id req })
      else
        let req := { req with
                       status := ApprovalStatus.APPROVED
                       approved_by := some approver
                       approved_at := some now }
        (true,
         { st with approval_requests := insertStore st.approval_requests request_id req })

/-- ApprovalManager.reject_request. Note the source checks only that the
record exists, is PENDING and the approver is eligible; unlike approve_request
it never consults the clock, so it takes no `now` parameter. -/
def reject_request (st : ManagerState) (request_id approver reason : String) :
    Bool × ManagerState :=
  match lookupStore st.approval_requests request_id with
  | none => (false, st)
  | some req =>
      if req.status ≠ ApprovalStatus.PENDING then (false, st)
      else if approver ∉ req.approvers then (false, st)
      else
        let req := { req with
                       status := ApprovalStatus.REJECTED
                       rejection_reason := some reason }
        (true,
         { st with approval_requests := insertStore st.approval_requests request_id req })

/-!  RiskEngine (risk_engine.py).  -/

/-- Union of the TaskId enum members referenced anywhere in the repository:
models/core_models.py declares CANCEL_ORDER and CHANGE_ORDER_STATUS, while
risk_engine.py (and other modules) reference CANCEL_CASE, CHANGE_CASE_STATUS
and RECONCILE_CASE_DATA. The embedding takes the union so that dictionary
misses in the task-risk table are expressible. -/
inductive TaskId where
  | CANCEL_ORDER
  | CHANGE_ORDER_STATUS
  | CANCEL_CASE
  | CHANGE_CASE_STATUS
  | RECONCILE_CASE_DATA
deriving DecidableEq, Repr

/-- The .value string of each TaskId member. -/
def TaskId.value : TaskId → String
  | .CANCEL_ORDER => "CANCEL_ORDER"
  | .CHANGE_ORDER_STATUS => "CHANGE_ORDER_STATUS"
  | .CANCEL_CASE => "CANCEL_CASE"
  | .CHANGE_CASE_STATUS => "CHANGE_CASE_STATUS"
  | .RECONCILE_CASE_DATA => "RECONCILE_CASE_DATA"

/-- RiskLevel enum from risk_engine.py. -/
inductive RiskLevel where
  | LOW
  | MEDIUM
  | HIGH
  | CRITICAL
deriving DecidableEq, Repr

/-- Python "sub in s": sub occurs as a contiguous substring of s. splitOn
returns a singleton exactly when the (non-empty) separator does not occur. -/
def strContains (s sub : String) : Bool :=
  (s.splitOn sub).length ≠ 1

/-- RiskFactor from risk_engine.py (the description string carries no
logic and is omitted from the claims; it is kept for fidelity). -/
structure RiskFactor where
  name : String
  score : ℚ
  weight : ℚ
  description : String
deriving Repr

/-- self.environment_risk.get(environment, 0.5). -/
def environment_risk (environment : String) : ℚ :=
  if environment = "dev" then 1/10
  else if environment = "staging" then 3/10
  else if environment = "prod" then 1
  else 1/2

/-- self.task_risk.get(classification.task_id, 0.5); the classification's
task_id is Optional, and a missing or untabulated task falls to 0.5. -/
def task_risk (task_id : Option TaskId) : ℚ :=
  match task_id with
  | some TaskId.CANCEL_CASE => 7/10
  | some TaskId.CHANGE_CASE_STATUS => 2/5
  | some TaskId.RECONCILE_CASE_DATA => 4/5
  | _ => 1/2

/-- RiskEngine._calculate_time_risk as a function of the local wall-clock
hour (the hidden datetime.now().hour input made explicit). -/
def calculate_time_risk (hour : Nat) : ℚ :=
  if 9 ≤ hour ∧ hour ≤ 17 then 1/5
  else if (6 ≤ hour ∧ hour ≤ 9) ∨ (17 ≤ hour ∧ hour ≤ 22) then 1/2
  else 4/5

/-- RiskEngine._calculate_user_risk: substring heuristics on the lowercased
user id. -/
def calculate_user_risk (user_id : String) : ℚ :=
  let l := user_id.toLower
  if strContains l "admin" ∨ strContains l "ops" then 1/5
  else if strContains l "engineer" then 2/5
  else 7/10

/-- RiskEngine._score_to_risk_level with the risk_thresholds table inlined
(LOW ↦ 0.3, MEDIUM ↦ 0.6, HIGH ↦ 0.8). -/
def score_to_risk_level (score : ℚ) : RiskLevel :=
  if score ≤ 3/10 then RiskLevel.LOW
  else if score ≤ 3/5 then RiskLevel.MEDIUM
  else if score ≤ 4/5 then RiskLevel.HIGH
  else RiskLevel.CRITICAL

/-- RiskEngine._requires_approval. -/
def requiresApprovalCheck (risk_level : RiskLevel) (environment : String)
    (task_id : Option TaskId) : Bool :=
  if environment = "prod" ∧
      (risk_level = RiskLevel.MEDIUM ∨ risk_level = RiskLevel.HIGH ∨
       risk_level = RiskLevel.CRITICAL) then
    true
  else if risk_level = RiskLevel.HIGH ∨ risk_level = RiskLevel.CRITICAL then
    true
  else if task_id = some TaskId.CANCEL_CASE ∧
      (environment = "staging" ∨ environment = "prod") then
    true
  else
    false

/-- RiskAssessment result record. The constraints dict (built by
_build_constraints) carries heterogeneous values no claim refers to and is
not modelled. -/
structure RiskAssessment where
  risk_level : RiskLevel
  score : ℚ
  factors : List RiskFactor
  requires_approval : Bool
deriving Repr

/-- RiskEngine.assess_risk: builds the four weighted factors, takes the
weighted mean, maps it to a level and derives the approval flag. The
request's environment and user_id, the classification's task_id, and the
wall-clock hour are its inputs. -/
def assess_risk (environment : String) (task_id : Option TaskId)
    (user_id : String) (hour : Nat) : RiskAssessment :=
  let risk_factors : List RiskFactor :=
    [ { name := "Environment Risk", score := environment_risk environment,
        weight := 2, description := "Risk associated with environment" },
      { name := "Task Complexity", score := task_risk task_id,
        weight := 3/2, description := "Risk associated with operation" },
      { name := "Timing Risk", score := calculate_time_risk hour,
        weight := 1/2, description := "Risk based on current time and business hours" },
      { name := "User Experience", score := calculate_user_risk user_id,
        weight := 1, description := "Risk based on operational experience" } ]
  let total_weighted_score := (risk_factors.map (fun f => f.score * f.weight)).sum
  let total_weight := (risk_factors.map (fun f => f.weight)).sum
  let overall_score := total_weighted_score / total_weight
  let risk_level := score_to_risk_level overall_score
  { risk_level := risk_level
    score := overall_score
    factors := risk_factors
    requires_approval := requiresApprovalCheck risk_level environment task_id }

/-!  PolicyValidator (policy_validator.py).  -/

/-- PolicyViolation record. -/
structure PolicyViolation where
  policy_name : String
  violation_type : String
  description : String
  severity : String
deriving DecidableEq, Repr

/-- PolicyValidationResult (constraints are a dict of policy metadata no
claim refers to; the fields the claims mention are kept). -/
structure PolicyValidationResult where
  allowed : Bool
  violations : List PolicyViolation
  warnings : List String
deriving Repr

/-- PolicyValidator._has_production_access: substring markers on the
lowercased user id. -/
def has_production_access (user_id : String) : Bool :=
  let l := user_id.toLower
  strContains l "ops" ∨ strContains l "admin" ∨ strContains l "engineer"

/-- PolicyValidator._validate_task_policies. `business_justification` is the
truthiness of request.context.get("business_justification"). -/
def validate_task_policies (task_id : Option TaskId) (environment : String)
    (business_justification : Bool) : List PolicyViolation :=
  match task_id with
  | none => []
  | some t =>
      if strContains t.value "CANCEL" then
        if environment = "prod" ∧ ¬business_justification then
          [ { policy_name := "business_justification"
              violation_type := "MISSING_CONTEXT"
              description := "Production case cancellations require business justification"
              severity := "WARNING" } ]
        else []
      else []

/-- PolicyValidator._validate_time_policies as a function of the wall-clock
hour and weekday (Monday = 0). -/
def validate_time_policies (environment : String) (hour weekday : Nat) :
    List String :=
  (if environment = "prod" ∧ ¬(9 ≤ hour ∧ hour ≤ 17) then
     ["Production operation requested outside business hours"]
   else []) ++
  (if weekday ≥ 5 then ["Operation requested during weekend"] else [])

/-- The severity filter deciding `allowed` in both validators. -/
def blockingViolations (violations : List PolicyViolation) : List PolicyViolation :=
  violations.filter (fun v => v.severity = "ERROR" ∨ v.severity = "CRITICAL")

/-- PolicyValidator.validate_request. Inputs: the request's environment,
user_id and business-justification context truthiness, the classification's
task_id, and the wall-clock hour/weekday feeding the advisory time checks. -/
def validate_request (environment user_id : String) (task_id : Option TaskId)
    (business_justification : Bool) (hour weekday : Nat) :
    PolicyValidationResult :=
  let violations :=
    (if environment = "prod" ∧ ¬has_production_access user_id then
       [ { policy_name := "production_access"
           violation_type := "AUTHORIZATION"
           description := "User does not have production access"
           severity := "ERROR" : PolicyViolation } ]
     else []) ++
    validate_task_policies task_id environment business_justification
  let warnings := validate_time_policies environment hour weekday
  let allowed := (blockingViolations violations).length = 0
  { allowed := allowed, violations := violations, warnings := warnings }

/-- risk_levels.get in _risk_exceeds_limit: LOW ↦ 1, MEDIUM ↦ 2, HIGH ↦ 3,
CRITICAL ↦ 4, anything else misses. -/
def risk_level_num (s : String) : Option Nat :=
  if s = "LOW" then some 1
  else if s = "MEDIUM" then some 2
  else if s = "HIGH" then some 3
  else if s = "CRITICAL" then some 4
  else none

/-- PolicyValidator._risk_exceeds_limit (note the asymmetric defaults: an
unknown plan risk defaults to 4, an unknown limit to 3). -/
def risk_exceeds_limit (plan_risk max_risk : String) : Bool :=
  (risk_level_num plan_risk).getD 4 > (risk_level_num max_risk).getD 3

/-- environment_policies.get(environment, \x7b\x7d).get("max_risk_level", "HIGH")
as used by validate_plan: prod caps at MEDIUM, staging and dev at HIGH, an
unknown environment misses the table and defaults to HIGH. -/
def max_risk_level_for (environment : String) : String :=
  if environment = "prod" then "MEDIUM"
  else "HIGH"

/-- PolicyValidator._validate_api_usage: the source returns no violations. -/
def validate_api_usage : List PolicyViolation := []

/-- PolicyValidator.validate_plan. Inputs: the plan's rollback presence
(truthiness of plan.rollback) and risk-level string, and the request's
environment. -/
def validate_plan (plan_rollback : Bool) (plan_risk_level : String)
    (environment : String) : PolicyValidationResult :=
  let violations :=
    validate_api_usage ++
    (if environment = "prod" ∧ ¬plan_rollback then
       [ { policy_name := "rollback_required"
           violation_type := "MISSING_PROCEDURE"
           description := "Production operations must include rollback procedures"
           severity := "ERROR" : PolicyViolation } ]
     else []) ++
    (if risk_exceeds_limit plan_risk_level (max_risk_level_for environment) then
       [ { policy_name := "max_risk_level"
           violation_type := "RISK_EXCEEDED"
           description := "Plan risk level exceeds maximum for environment"
           severity := "ERROR" : PolicyViolation } ]
     else [])
  let allowed := (blockingViolations violations).length = 0
  { allowed := allowed, violations := violations, warnings := [] }

/-!  Helper lemmas about the store and the operations.  -/

/-- Abbreviation for a store write inside a manager state (the Python
statement self.approval_requests[request_id] = req). -/
def storePut (st : ManagerState) (rid : String) (r : ApprovalRequest) :
    ManagerState :=
  { st with approval_requests := insertStore st.approval_requests rid r }

/-- The record built by create_approval_request when the policy requires
approval (the value of the ApprovalRequest constructor call). -/
def createdRequest (st : ManagerState)
    (rid summary level requester env : String) (t0 : Int) : ApprovalRequest :=
  { request_id := rid
    operation_summary := summary
    risk_level := level
    requester := requester
    approvers := (get_eligible_approvers st level env).1
    status := ApprovalStatus.PENDING
    created_at := t0
    expires_at := t0 +
      3600 * (((st.approval_policies.get level).getD st.approval_policies.high).timeout_hours : Int)
    approved_by := none
    approved_at := none
    rejection_reason := none }

/-- Ordinal rank of a risk level (LOW < MEDIUM < HIGH < CRITICAL). -/
def riskLevelOrd : RiskLevel → Nat
  | RiskLevel.LOW => 0
  | RiskLevel.MEDIUM => 1
  | RiskLevel.HIGH => 2
  | RiskLevel.CRITICAL => 3

/-- Lookup after a store write: the written key reads back the new value,
every other key is untouched. -/
theorem lookupStore_insertStore (s : List (String × ApprovalRequest))
    (k k2 : String) (v : ApprovalRequest) :
    lookupStore (insertStore s k v) k2 =
      if k2 = k then some v else lookupStore s k2 := by
  induction s with
  | nil =>
      simp only [insertStore, lookupStore]
  | cons hd tl ih =>
      obtain ⟨k3, w⟩ := hd
      by_cases hkk3 : k = k3
      · subst hkk3
        simp only [insertStore, if_pos rfl, lookupStore]
        by_cases h2 : k2 = k <;> simp [h2]
      · simp only [insertStore, if_neg hkk3, lookupStore, ih]
        by_cases h2 : k2 = k3
        · subst h2
          simp only [if_pos rfl]
          have : ¬k2 = k := fun h => hkk3 (h ▸ rfl)
          simp [this]
        · simp [h2]

/-- Full case analysis of approve_request, mirroring the guard order of the
source: absent record, non-PENDING record, ineligible approver, past expiry
(flips to EXPIRED), success (APPROVED with approvedBy/approvedAt). -/
theorem approve_request_spec (st : ManagerState) (rid approver : String)
    (now : Int) :
    (lookupStore st.approval_requests rid = none →
       approve_request st rid approver now = (false, st)) ∧
    (∀ r, lookupStore st.approval_requests rid = some r →
      (r.status ≠ ApprovalStatus.PENDING →
         approve_request st rid approver now = (false, st)) ∧
      (r.status = ApprovalStatus.PENDING → approver ∉ r.approvers →
         approve_request st rid approver now = (false, st)) ∧
      (r.status = ApprovalStatus.PENDING → approver ∈ r.approvers →
         now > r.expires_at →
         approve_request st rid approver now =
           (false, storePut st rid { r with status := ApprovalStatus.EXPIRED })) ∧
      (r.status = ApprovalStatus.PENDING → approver ∈ r.approvers →
         ¬now > r.expires_at →
         approve_request st rid approver now =
           (true, storePut st rid
             { r with status := ApprovalStatus.APPROVED
                      approved_by := some approver
                      approved_at := some now }))) := by
  constructor
  · intro h
    simp [approve_request, h]
  · intro r hr
    refine ⟨?_, ?_, ?_, ?_⟩
    · intro hs
      simp [approve_request, hr, hs]
    · intro hs hmem
      simp [approve_request, hr, hs, hmem]
    · intro hs hmem hexp
      simp [approve_request, storePut, hr, hs, hmem, hexp]
    · intro hs hmem hexp
      simp [approve_request, storePut, hr, hs, hmem, hexp]

/-- Full case analysis of reject_request: same absent / non-PENDING /
ineligible guards as approve_request, but no expiry guard at all (the
function never reads the clock), and on success only status and
rejection_reason change. -/
theorem reject_request_spec (st : ManagerState) (rid approver reason : String) :
    (lookupStore st.approval_requests rid = none →
       reject_request st rid approver reason = (false, st)) ∧
    (∀ r, lookupStore st.approval_requests rid = some r →
      (r.status ≠ ApprovalStatus.PENDING →
         reject_request st rid approver reason = (false, st)) ∧
      (r.status = ApprovalStatus.PENDING → approver ∉ r.approvers →
         reject_request st rid approver reason = (false, st)) ∧
      (r.status = ApprovalStatus.PENDING → approver ∈ r.approvers →
         reject_request st rid approver reason =
           (true, storePut st rid
             { r with status := ApprovalStatus.REJECTED
                      rejection_reason := some reason }))) := by
  constructor
  · intro h
    simp [reject_request, h]
  · intro r hr
    refine ⟨?_, ?_, ?_⟩
    · intro hs
      simp [reject_request, hr, hs]
    · intro hs hmem
      simp [reject_request, hr, hs, hmem]
    · intro hs hmem
      simp [reject_request, storePut, hr, hs, hmem]

/-- Full case analysis of check_approval_status: not-found passes through,
a PENDING record past expiry is finalized to EXPIRED and returned updated,
every other record is returned unchanged with no state mutation. -/
theorem check_approval_status_spec (st : ManagerState) (rid : String)
    (now : Int) :
    (lookupStore st.approval_requests rid = none →
       check_approval_status st rid now = (none, st)) ∧
    (∀ r, lookupStore st.approval_requests rid = some r →
      (now > r.expires_at → r.status = ApprovalStatus.PENDING →
         check_approval_status st rid now =
           (some { r with status := ApprovalStatus.EXPIRED },
            storePut st rid { r with status := ApprovalStatus.EXPIRED })) ∧
      (¬(now > r.expires_at ∧ r.status = ApprovalStatus.PENDING) →
         check_approval_status st rid now = (some r, st))) := by
  constructor
  · intro h
    simp [check_approval_status, h]
  · intro r hr
    constructor
    · intro hexp hs
      simp [check_approval_status, storePut, hr, hexp, hs]
    · intro hcond
      simp only [check_approval_status, hr]
      rw [if_neg hcond]

/-- _get_eligible_approvers never touches the request store: only the policy
table can be mutated by its aliased extend. -/
theorem get_eligible_approvers_requests (st : ManagerState) (l e : String) :
    (get_eligible_approvers st l e).2.approval_requests = st.approval_requests := by
  simp only [get_eligible_approvers]
  split
  · rfl
  · split_ifs <;> rfl

/-- create_approval_request with a policy that does not require approval
returns no record and leaves the state untouched. -/
theorem create_not_required_eq (st : ManagerState)
    (rid summary level requester env : String) (t0 : Int)
    (hreq : ((st.approval_policies.get level).getD st.approval_policies.high).required
              = false) :
    create_approval_request st rid summary level requester env t0 = (none, st) := by
  simp [create_approval_request, hreq]

/-- create_approval_request with a policy that requires approval returns the
built PENDING record and stores it under the request id; the resulting policy
table is whatever _get_eligible_approvers left behind. -/
theorem create_required_eq (st : ManagerState)
    (rid summary level requester env : String) (t0 : Int)
    (hreq : ((st.approval_policies.get level).getD st.approval_policies.high).required
              = true) :
    create_approval_request st rid summary level requester env t0 =
      (some (createdRequest st rid summary level requester env t0),
       { approval_policies := (get_eligible_approvers st level env).2.approval_policies
         approval_requests := insertStore st.approval_requests rid
           (createdRequest st rid summary level requester env t0) }) := by
  simp only [create_approval_request, hreq, Bool.not_true, Bool.false_eq_true,
    if_false, createdRequest]
  rw [get_eligible_approvers_requests]

/-- Status evolution under approve_request: any stored record either keeps
its status or moves from PENDING to a non-PENDING status. -/
theorem approve_status_evolution (st : ManagerState) (rid approver : String)
    (now : Int) (rid2 : String) (r r2 : ApprovalRequest)
    (h1 : lookupStore st.approval_requests rid2 = some r)
    (h2 : lookupStore (approve_request st rid approver now).2.approval_requests rid2
            = some r2) :
    r2.status = r.status ∨
      (r.status = ApprovalStatus.PENDING ∧ r2.status ≠ ApprovalStatus.PENDING) := by
  cases hl : lookupStore st.approval_requests rid with
  | none =>
      rw [(approve_request_spec st rid approver now).1 hl] at h2
      rw [h1] at h2
      left
      rw [Option.some_inj.mp h2]
  | some req =>
      have hspec := (approve_request_spec st rid approver now).2 req hl
      by_cases hs : req.status = ApprovalStatus.PENDING
      · by_cases hmem : approver ∈ req.approvers
        · by_cases hexp : now > req.expires_at
          · rw [hspec.2.2.1 hs hmem hexp] at h2
            simp only [storePut, lookupStore_insertStore] at h2
            by_cases hrid : rid2 = rid
            · rw [if_pos hrid] at h2
              rw [hrid, hl] at h1
              right
              refine ⟨(Option.some_inj.mp h1) ▸ hs, ?_⟩
              rw [← Option.some_inj.mp h2]
              simp
            · rw [if_neg hrid] at h2
              rw [h1] at h2
              left
              rw [Option.some_inj.mp h2]
          · rw [hspec.2.2.2 hs hmem hexp] at h2
            simp only [storePut, lookupStore_insertStore] at h2
            by_cases hrid : rid2 = rid
            · rw [if_pos hrid] at h2
              rw [hrid, hl] at h1
              right
              refine ⟨(Option.some_inj.mp h1) ▸ hs, ?_⟩
              rw [← Option.some_inj.mp h2]
              simp
            · rw [if_neg hrid] at h2
              rw [h1] at h2
              left
              rw [Option.some_inj.mp h2]
        · rw [hspec.2.1 hs hmem] at h2
          rw [h1] at h2
          left
          rw [Option.some_inj.mp h2]
      · rw [hspec.1 hs] at h2
        rw [h1] at h2
        left
        rw [Option.some_inj.mp h2]

/-- Status evolution under reject_request: any stored record either keeps
its status or moves from PENDING to a non-PENDING status. -/
theorem reject_status_evolution (st : ManagerState) (rid approver reason : String)
    (rid2 : String) (r r2 : ApprovalRequest)
    (h1 : lookupStore st.approval_requests rid2 = some r)
    (h2 : lookupStore (reject_request st rid approver reason).2.approval_requests rid2
            = some r2) :
    r2.status = r.status ∨
      (r.status = ApprovalStatus.PENDING ∧ r2.status ≠ ApprovalStatus.PENDING) := by
  cases hl : lookupStore st.approval_requests rid with
  | none =>
      rw [(reject_request_spec st rid approver reason).1 hl] at h2
      rw [h1] at h2
      left
      rw [Option.some_inj.mp h2]
  | some req =>
      have hspec := (reject_request_spec st rid approver reason).2 req hl
      by_cases hs : req.status = ApprovalStatus.PENDING
      · by_cases hmem : approver ∈ req.approvers
        · rw [hspec.2.2 hs hmem] at h2
          simp only [storePut, lookupStore_insertStore] at h2
          by_cases hrid : rid2 = rid
          · rw [if_pos hrid] at h2
            rw [hrid, hl] at h1
            right
            refine ⟨(Option.some_inj.mp h1) ▸ hs, ?_⟩
            rw [← Option.some_inj.mp h2]
            simp
          · rw [if_neg hrid] at h2
            rw [h1] at h2
            left
            rw [Option.some_inj.mp h2]
        · rw [hspec.2.1 hs hmem] at h2
          rw [h1] at h2
          left
          rw [Option.some_inj.mp h2]
      · rw [hspec.1 hs] at h2
        rw [h1] at h2
        left
        rw [Option.some_inj.mp h2]

/-- Status evolution under check_approval_status: any stored record either
keeps its status or moves from PENDING to a non-PENDING status. -/
theorem check_status_evolution (st : ManagerState) (rid : String) (now : Int)
    (rid2 : String) (r r2 : ApprovalRequest)
    (h1 : lookupStore st.approval_requests rid2 = some r)
    (h2 : lookupStore (check_approval_status st rid now).2.approval_requests rid2
            = some r2) :
    r2.status = r.status ∨
      (r.status = ApprovalStatus.PENDING ∧ r2.status ≠ ApprovalStatus.PENDING) := by
  cases hl : lookupStore st.approval_requests rid with
  | none =>
      rw [(check_approval_status_spec st rid now).1 hl] at h2
      rw [h1] at h2
      left
      rw [Option.some_inj.mp h2]
  | some req =>
      have hspec := (check_approval_status_spec st rid now).2 req hl
      by_cases hcond : now > req.expires_at ∧ req.status = ApprovalStatus.PENDING
      · rw [hspec.1 hcond.1 hcond.2] at h2
        simp only [storePut, lookupStore_insertStore] at h2
        by_cases hrid : rid2 = rid
        · rw [if_pos hrid] at h2
          rw [hrid, hl] at h1
          right
          refine ⟨(Option.some_inj.mp h1) ▸ hcond.2, ?_⟩
          rw [← Option.some_inj.mp h2]
          simp
        · rw [if_neg hrid] at h2
          rw [h1] at h2
          left
          rw [Option.some_inj.mp h2]
      · rw [hspec.2 hcond] at h2
        rw [h1] at h2
        left
        rw [Option.some_inj.mp h2]

/-!  Claim theorems.  -/

/-- C1: the claim states that the approver set of a created request depends
only on the risk level and environment of that call, with cto and
vp_engineering added exactly when environment is prod and the level is HIGH
or CRITICAL. The code violates this: the prod-time extend mutates the list
object stored in the policy table, so after one create with level HIGH in
prod, a second create with level HIGH in dev still receives cto and
vp_engineering among its approvers. This theorem evaluates the code at that
failing input. -/
theorem c1_policy_table_pollution :
    Option.map (fun r => (r.request_id, r.approvers.contains "cto",
        r.approvers.contains "vp_engineering"))
      (create_approval_request
        (create_approval_request initialManager "r1" "deploy" "HIGH" "alice" "prod" 0).2
        "r2" "deploy" "HIGH" "bob" "dev" 0).1
      = some ("r2", true, true) := by
  decide

/-- C2 counterexample: after creating a HIGH request in prod at time 0 the
stored record is PENDING with expiresAt = 43200, which is already past at
time 100000; yet reject_request by the eligible approver ops_manager returns
true and sets status REJECTED (the source has no expiry guard in reject and
never reads the clock), contradicting the claim that such a reject returns
false and the only mutation is the flip to EXPIRED. -/
theorem c2_reject_ignores_expiry_counterexample :
    Option.map (fun r => (r.status, r.expires_at))
        (lookupStore (create_approval_request initialManager "r1" "cancel-case"
            "HIGH" "alice" "prod" 0).2.approval_requests "r1")
      = some (ApprovalStatus.PENDING, 43200) ∧
    (43200 : Int) < 100000 ∧
    (reject_request (create_approval_request initialManager "r1" "cancel-case"
        "HIGH" "alice" "prod" 0).2 "r1" "ops_manager" "nope").1 = true ∧
    Option.map (fun r => r.status)
        (lookupStore (reject_request (create_approval_request initialManager "r1"
            "cancel-case" "HIGH" "alice" "prod" 0).2 "r1" "ops_manager"
            "nope").2.approval_requests "r1")
      = some ApprovalStatus.REJECTED := by
  refine ⟨by decide, by norm_num, by decide, by decide⟩

/-- C2 amended: reject_request applies only the record-absent, not-PENDING
and approver-ineligibility guards of approve_request, not the expiry guard;
it never reads the clock, so a record that is still PENDING but past
expiresAt is rejected like any other PENDING record: an eligible approver
gets true and the record becomes REJECTED with rejectionReason set (nothing
else mutated, and never a flip to EXPIRED); an ineligible approver or a
non-PENDING record gets false with no mutation. -/
theorem c2_reject_guards_amended (st : ManagerState)
    (rid approver reason : String) (r : ApprovalRequest)
    (hr : lookupStore st.approval_requests rid = some r) :
    (r.status ≠ ApprovalStatus.PENDING →
       reject_request st rid approver reason = (false, st)) ∧
    (r.status = ApprovalStatus.PENDING → approver ∉ r.approvers →
       reject_request st rid approver reason = (false, st)) ∧
    (r.status = ApprovalStatus.PENDING → approver ∈ r.approvers →
       reject_request st rid approver reason =
         (true, storePut st rid
           { r with status := ApprovalStatus.REJECTED
                    rejection_reason := some reason })) := by
  exact (reject_request_spec st rid approver reason).2 r hr

/-- C2 witness: the amended characterization applied to the concrete expired
PENDING record of the counterexample scenario. -/
theorem c2_reject_guards_amended_witness :
    (reject_request (create_approval_request initialManager "r1" "cancel-case"
        "HIGH" "alice" "prod" 0).2 "r1" "ops_manager" "nope").1 = true := by
  have h := (c2_reject_guards_amended
    (create_approval_request initialManager "r1" "cancel-case" "HIGH" "alice" "prod" 0).2
    "r1" "ops_manager" "nope"
    { request_id := "r1"
      operation_summary := "cancel-case"
      risk_level := "HIGH"
      requester := "alice"
      approvers := ["ops_manager", "engineering_manager", "cto", "vp_engineering"]
      status := ApprovalStatus.PENDING
      created_at := 0
      expires_at := 43200
      approved_by := none
      approved_at := none
      rejection_reason := none }
    (by decide)).2.2 rfl (by decide)
  rw [h]

/-- C3: terminal states are absorbing. For a stored record whose status is
not PENDING (i.e. APPROVED, REJECTED, EXPIRED or CANCELLED), approve_request
and reject_request return false and leave the whole manager state unchanged,
and check_approval_status returns the record unchanged without mutating the
state; moreover under approve, reject and check every stored record either
keeps its status or moves from PENDING to a non-PENDING (terminal) status. -/
theorem c3_terminal_states_absorbing (st : ManagerState)
    (rid approver reason : String) (now : Int) :
    (∀ r, lookupStore st.approval_requests rid = some r →
       r.status ≠ ApprovalStatus.PENDING →
       approve_request st rid approver now = (false, st) ∧
       reject_request st rid approver reason = (false, st) ∧
       check_approval_status st rid now = (some r, st)) ∧
    (∀ rid2 r r2, lookupStore st.approval_requests rid2 = some r →
       (lookupStore (approve_request st rid approver now).2.approval_requests rid2
           = some r2 ∨
        lookupStore (reject_request st rid approver reason).2.approval_requests rid2
           = some r2 ∨
        lookupStore (check_approval_status st rid now).2.approval_requests rid2
           = some r2) →
       r2.status = r.status ∨
         (r.status = ApprovalStatus.PENDING ∧ r2.status ≠ ApprovalStatus.PENDING)) := by
  constructor
  · intro r hr hterm
    refine ⟨((approve_request_spec st rid approver now).2 r hr).1 hterm,
            ((reject_request_spec st rid approver reason).2 r hr).1 hterm,
            ((check_approval_status_spec st rid now).2 r hr).2 (fun hc => hterm hc.2)⟩
  · intro rid2 r r2 h1 h2
    rcases h2 with h2 | h2 | h2
    · exact approve_status_evolution st rid approver now rid2 r r2 h1 h2
    · exact reject_status_evolution st rid approver reason rid2 r r2 h1 h2
    · exact check_status_evolution st rid now rid2 r r2 h1 h2

/-- C3 witness: the absorption clauses applied to a concrete store holding an
APPROVED record. -/
theorem c3_terminal_states_absorbing_witness :
    approve_request
        { approval_policies := initialPolicies
          approval_requests := [("r1",
            { request_id := "r1"
              operation_summary := "s"
              risk_level := "HIGH"
              requester := "alice"
              approvers := ["ops_manager"]
              status := ApprovalStatus.APPROVED
              created_at := 0
              expires_at := 43200
              approved_by := some "ops_manager"
              approved_at := some 10
              rejection_reason := none })] }
        "r1" "ops_manager" 50
      = (false,
         { approval_policies := initialPolicies
           approval_requests := [("r1",
             { request_id := "r1"
               operation_summary := "s"
               risk_level := "HIGH"
               requester := "alice"
               approvers := ["ops_manager"]
               status := ApprovalStatus.APPROVED
               created_at := 0
               expires_at := 43200
               approved_by := some "ops_manager"
               approved_at := some 10
               rejection_reason := none })] }) := by
  exact ((c3_terminal_states_absorbing _ "r1" "ops_manager" "why" 50).1
    { request_id := "r1"
      operation_summary := "s"
      risk_level := "HIGH"
      requester := "alice"
      approvers := ["ops_manager"]
      status := ApprovalStatus.APPROVED
      created_at := 0
      expires_at := 43200
      approved_by := some "ops_manager"
      approved_at := some 10
      rejection_reason := none }
    (by decide) (by decide)).1

/-- C4: full case analysis of approve_request. It returns false without any
mutation when the request id is absent, the record is not PENDING, or the
approver is not in the stored approver list (the record then still reads
back PENDING); a PENDING record past expiry yields false with the single
mutation status := EXPIRED; otherwise it returns true and the record becomes
APPROVED with approvedBy and approvedAt filled in. -/
theorem c4_approve_request_cases (st : ManagerState) (rid approver : String)
    (now : Int) :
    (lookupStore st.approval_requests rid = none →
       approve_request st rid approver now = (false, st)) ∧
    (∀ r, lookupStore st.approval_requests rid = some r →
      (r.status ≠ ApprovalStatus.PENDING →
         approve_request st rid approver now = (false, st)) ∧
      (r.status = ApprovalStatus.PENDING → approver ∉ r.approvers →
         approve_request st rid approver now = (false, st) ∧
         lookupStore (approve_request st rid approver now).2.approval_requests rid
           = some r) ∧
      (r.status = ApprovalStatus.PENDING → approver ∈ r.approvers →
         now > r.expires_at →
         approve_request st rid approver now =
           (false, storePut st rid { r with status := ApprovalStatus.EXPIRED })) ∧
      (r.status = ApprovalStatus.PENDING → approver ∈ r.approvers →
         ¬now > r.expires_at →
         approve_request st rid approver now =
           (true, storePut st rid
             { r with status := ApprovalStatus.APPROVED
                      approved_by := some approver
                      approved_at := some now }))) := by
  refine ⟨(approve_request_spec st rid approver now).1, ?_⟩
  intro r hr
  have hspec := (approve_request_spec st rid approver now).2 r hr
  refine ⟨hspec.1, ?_, hspec.2.2.1, hspec.2.2.2⟩
  intro hs hmem
  refine ⟨hspec.2.1 hs hmem, ?_⟩
  rw [hspec.2.1 hs hmem]
  exact hr

/-- C4 witness: the success clause applied to a concrete PENDING record
before expiry, and the ineligible-approver clause on the same record. -/
theorem c4_approve_request_cases_witness :
    (approve_request (create_approval_request initialManager "r1" "cancel-case"
        "HIGH" "alice" "prod" 0).2 "r1" "ops_manager" 5).1 = true ∧
    (approve_request (create_approval_request initialManager "r1" "cancel-case"
        "HIGH" "alice" "prod" 0).2 "r1" "random_user" 5).1 = false := by
  constructor
  · have h := (((c4_approve_request_cases
      (create_approval_request initialManager "r1" "cancel-case" "HIGH" "alice" "prod" 0).2
      "r1" "ops_manager" 5).2
      { request_id := "r1"
        operation_summary := "cancel-case"
        risk_level := "HIGH"
        requester := "alice"
        approvers := ["ops_manager", "engineering_manager", "cto", "vp_engineering"]
        status := ApprovalStatus.PENDING
        created_at := 0
        expires_at := 43200
        approved_by := none
        approved_at := none
        rejection_reason := none }
      (by decide)).2.2.2) rfl (by decide) (by decide)
    rw [h]
  · have h := (((c4_approve_request_cases
      (create_approval_request initialManager "r1" "cancel-case" "HIGH" "alice" "prod" 0).2
      "r1" "random_user" 5).2
      { request_id := "r1"
        operation_summary := "cancel-case"
        risk_level := "HIGH"
        requester := "alice"
        approvers := ["ops_manager", "engineering_manager", "cto", "vp_engineering"]
        status := ApprovalStatus.PENDING
        created_at := 0
        expires_at := 43200
        approved_by := none
        approved_at := none
        rejection_reason := none }
      (by decide)).2.1) rfl (by decide)
    rw [h.1]

/-- C5: check_approval_status returns None exactly when no record exists for
the request id; for an existing record the only possible mutation is the
status flip of a PENDING record whose expiresAt is strictly past, which is
finalized to EXPIRED and returned as such, every other record being returned
unchanged with no state mutation; and a create_approval_request that returns
a record, followed by check_approval_status at or before expiresAt, returns
that same PENDING record (approver list included) without mutating the
state further. -/
theorem c5_check_status_frame (st : ManagerState) (rid : String) (now : Int) :
    ((check_approval_status st rid now).1 = none ↔
       lookupStore st.approval_requests rid = none) ∧
    (∀ r, lookupStore st.approval_requests rid = some r →
      (r.status = ApprovalStatus.PENDING → now > r.expires_at →
         check_approval_status st rid now =
           (some { r with status := ApprovalStatus.EXPIRED },
            storePut st rid { r with status := ApprovalStatus.EXPIRED })) ∧
      (¬(r.status = ApprovalStatus.PENDING ∧ now > r.expires_at) →
         check_approval_status st rid now = (some r, st))) ∧
    (∀ summary level requester env req t0 t,
       (create_approval_request st rid summary level requester env t0).1 = some req →
       t ≤ req.expires_at →
       req.status = ApprovalStatus.PENDING ∧
       check_approval_status
           (create_approval_request st rid summary level requester env t0).2 rid t =
         (some req, (create_approval_request st rid summary level requester env t0).2)) := by
  refine ⟨?_, ?_, ?_⟩
  · constructor
    · intro h
      cases hl : lookupStore st.approval_requests rid with
      | none => rfl
      | some r =>
          exfalso
          have hspec := (check_approval_status_spec st rid now).2 r hl
          by_cases hc : now > r.expires_at ∧ r.status = ApprovalStatus.PENDING
          · rw [hspec.1 hc.1 hc.2] at h
            exact Option.some_ne_none _ h
          · rw [hspec.2 hc] at h
            exact Option.some_ne_none _ h
    · intro h
      rw [(check_approval_status_spec st rid now).1 h]
  · intro r hr
    have hspec := (check_approval_status_spec st rid now).2 r hr
    constructor
    · intro hs hexp
      exact hspec.1 hexp hs
    · intro hc
      exact hspec.2 (fun hc2 => hc ⟨hc2.2, hc2.1⟩)
  · intro summary level requester env req t0 t hcreate ht
    by_cases hreq :
        ((st.approval_policies.get level).getD st.approval_policies.high).required = true
    · have hc := create_required_eq st rid summary level requester env t0 hreq
      have hreq2 : req = createdRequest st rid summary level requester env t0 := by
        rw [hc] at hcreate
        exact (Option.some_inj.mp hcreate).symm
      have hstatus : req.status = ApprovalStatus.PENDING := by
        rw [hreq2]
        rfl
      refine ⟨hstatus, ?_⟩
      have hlook : lookupStore
          (create_approval_request st rid summary level requester env t0).2.approval_requests
          rid = some req := by
        rw [hc, hreq2]
        simp [lookupStore_insertStore]
      have hspec := (check_approval_status_spec
        (create_approval_request st rid summary level requester env t0).2 rid t).2 req hlook
      exact hspec.2 (fun hc2 => absurd ht (by omega))
    · exfalso
      have : ((st.approval_policies.get level).getD st.approval_policies.high).required
          = false := by
        revert hreq
        cases ((st.approval_policies.get level).getD st.approval_policies.high).required <;>
          simp
      rw [create_not_required_eq st rid summary level requester env t0 this] at hcreate
      exact Option.noConfusion hcreate

/-- C5 witness: create a HIGH request in prod at time 0 and check it at time
100, before expiry: the record comes back PENDING and unchanged. -/
theorem c5_check_status_frame_witness :
    (check_approval_status
        (create_approval_request initialManager "r1" "cancel-case" "HIGH" "alice"
          "prod" 0).2 "r1" 100).1
      = some
        { request_id := "r1"
          operation_summary := "cancel-case"
          risk_level := "HIGH"
          requester := "alice"
          approvers := ["ops_manager", "engineering_manager", "cto", "vp_engineering"]
          status := ApprovalStatus.PENDING
          created_at := 0
          expires_at := 43200
          approved_by := none
          approved_at := none
          rejection_reason := none } := by
  have h := ((c5_check_status_frame initialManager "r1" 100).2.2 "cancel-case" "HIGH"
    "alice" "prod"
    { request_id := "r1"
      operation_summary := "cancel-case"
      risk_level := "HIGH"
      requester := "alice"
      approvers := ["ops_manager", "engineering_manager", "cto", "vp_engineering"]
      status := ApprovalStatus.PENDING
      created_at := 0
      expires_at := 43200
      approved_by := none
      approved_at := none
      rejection_reason := none }
    0 100 (by decide) (by decide)).2
  rw [h]

/-- C10 counterexample: on a fresh manager, a create call with the unknown
risk level BOGUS in environment prod produces a request whose approvers do
not include cto (nor vp_engineering), contrary to the claim that the HIGH
fallback adds cto and vp_engineering in prod; the prod augmentation tests
the raw risk-level string, which is neither HIGH nor CRITICAL. -/
theorem c10_unknown_level_no_prod_augmentation_counterexample :
    Option.map (fun r => (r.approvers.contains "cto",
        r.approvers.contains "vp_engineering", r.approvers))
      (create_approval_request initialManager "r1" "s" "BOGUS" "u" "prod" 0).1
      = some (false, false, ["ops_manager", "engineering_manager"]) := by
  decide

/-- C10 amended: create_approval_request with a risk-level string outside
LOW/MEDIUM/HIGH/CRITICAL does not fail and does not return the no-approval
result: it silently falls back to the HIGH policy, creating and storing a
PENDING request that expires 12 hours from creation whose approvers are the
HIGH base roles ops_manager and engineering_manager only; the prod
augmentation with cto and vp_engineering never applies to an unknown level
(even when environment is prod) because it tests the raw risk-level string,
and the policy table is left unchanged. -/
theorem c10_unknown_level_falls_back_to_high (reqs : List (String × ApprovalRequest))
    (rid summary level requester env : String) (now : Int)
    (h1 : level ≠ "LOW") (h2 : level ≠ "MEDIUM") (h3 : level ≠ "HIGH")
    (h4 : level ≠ "CRITICAL") :
    create_approval_request ⟨initialPolicies, reqs⟩ rid summary level requester env now =
      (some (createdRequest ⟨initialPolicies, reqs⟩ rid summary level requester env now),
       ⟨initialPolicies, insertStore reqs rid
         (createdRequest ⟨initialPolicies, reqs⟩ rid summary level requester env now)⟩) ∧
    (createdRequest ⟨initialPolicies, reqs⟩ rid summary level requester env now).status
      = ApprovalStatus.PENDING ∧
    (createdRequest ⟨initialPolicies, reqs⟩ rid summary level requester env now).risk_level
      = level ∧
    (createdRequest ⟨initialPolicies, reqs⟩ rid summary level requester env now).expires_at
      = now + 3600 * 12 ∧
    (∀ a, a ∈ (createdRequest ⟨initialPolicies, reqs⟩ rid summary level requester env
        now).approvers ↔ (a = "ops_manager" ∨ a = "engineering_manager")) := by
  have hget : (Policies.get initialPolicies level) = none := by
    simp [Policies.get, h1, h2, h3, h4]
  have hpol : ((Policies.get initialPolicies level).getD initialPolicies.high)
      = initialPolicies.high := by
    rw [hget]
    rfl
  have helig : (get_eligible_approvers ⟨initialPolicies, reqs⟩ level env)
      = (["ops_manager", "engineering_manager"], ⟨initialPolicies, reqs⟩) := by
    show (get_eligible_approvers
        { approval_policies := initialPolicies, approval_requests := reqs } level env) = _
    simp only [get_eligible_approvers, hpol]
    simp only [initialPolicies]
    simp [h3, h4]
    decide
  refine ⟨?_, rfl, rfl, ?_, ?_⟩
  · have := create_required_eq ⟨initialPolicies, reqs⟩ rid summary level requester env now
      (by rw [show ((⟨initialPolicies, reqs⟩ : ManagerState).approval_policies.get level)
            = none from hget]; rfl)
    rw [this, helig]
  · show now + 3600 *
        ((((⟨initialPolicies, reqs⟩ : ManagerState).approval_policies.get level).getD
          initialPolicies.high).timeout_hours : Int) = now + 3600 * 12
    rw [show ((⟨initialPolicies, reqs⟩ : ManagerState).approval_policies.get level)
        = none from hget]
    rfl
  · intro a
    show a ∈ (get_eligible_approvers ⟨initialPolicies, reqs⟩ level env).1 ↔ _
    rw [helig]
    simp

/-- C10 witness: the amended fallback behavior at the concrete unknown level
BOGUS in prod on a fresh manager. -/
theorem c10_unknown_level_falls_back_to_high_witness :
    (createdRequest ⟨initialPolicies, []⟩ "r1" "s" "BOGUS" "u" "prod" 0).expires_at
      = 0 + 3600 * 12 ∧
    ¬("cto" ∈ (createdRequest ⟨initialPolicies, []⟩ "r1" "s" "BOGUS" "u" "prod"
        0).approvers) := by
  have h := c10_unknown_level_falls_back_to_high [] "r1" "s" "BOGUS" "u" "prod" 0
    (by decide) (by decide) (by decide) (by decide)
  refine ⟨h.2.2.2.1, ?_⟩
  intro hmem
  rcases (h.2.2.2.2 "cto").mp hmem with hc | hc <;> exact absurd hc (by decide)

/-- Propositional characterization of _requires_approval. -/
theorem requiresApprovalCheck_iff (l : RiskLevel) (e : String) (t : Option TaskId) :
    requiresApprovalCheck l e t = true ↔
      ((e = "prod" ∧ (l = RiskLevel.MEDIUM ∨ l = RiskLevel.HIGH ∨
          l = RiskLevel.CRITICAL)) ∨
       (l = RiskLevel.HIGH ∨ l = RiskLevel.CRITICAL) ∨
       (t = some TaskId.CANCEL_CASE ∧ (e = "staging" ∨ e = "prod"))) := by
  unfold requiresApprovalCheck
  split_ifs with hA hB hC <;> simp_all

/-- C6: the requires_approval flag of the RiskAssessment produced by
assess_risk is true exactly when the environment is prod and the assessed
level is MEDIUM, HIGH or CRITICAL, or the assessed level is HIGH or CRITICAL
in any environment, or the task is CANCEL_CASE and the environment is
staging or prod. -/
theorem c6_requires_approval_iff (environment : String) (task_id : Option TaskId)
    (user_id : String) (hour : Nat) :
    (assess_risk environment task_id user_id hour).requires_approval = true ↔
      ((environment = "prod" ∧
          ((assess_risk environment task_id user_id hour).risk_level
              = RiskLevel.MEDIUM ∨
           (assess_risk environment task_id user_id hour).risk_level
              = RiskLevel.HIGH ∨
           (assess_risk environment task_id user_id hour).risk_level
              = RiskLevel.CRITICAL)) ∨
       ((assess_risk environment task_id user_id hour).risk_level = RiskLevel.HIGH ∨
        (assess_risk environment task_id user_id hour).risk_level
          = RiskLevel.CRITICAL) ∨
       (task_id = some TaskId.CANCEL_CASE ∧
          (environment = "staging" ∨ environment = "prod"))) := by
  have h : (assess_risk environment task_id user_id hour).requires_approval =
      requiresApprovalCheck
        ((assess_risk environment task_id user_id hour).risk_level)
        environment task_id := rfl
  rw [h, requiresApprovalCheck_iff]

/-- The allowed bit computed from a violation list is false exactly when
some violation has severity ERROR or CRITICAL. -/
theorem allowed_false_iff (V : List PolicyViolation) :
    (decide ((blockingViolations V).length = 0) = false) ↔
      ∃ v ∈ V, v.severity = "ERROR" ∨ v.severity = "CRITICAL" := by
  rw [decide_eq_false_iff_not]
  unfold blockingViolations
  rw [List.length_eq_zero, List.filter_eq_nil_iff]
  push_neg
  constructor
  · intro h
    obtain ⟨v, hv, hp⟩ := h
    refine ⟨v, hv, ?_⟩
    simpa using hp
  · intro h
    obtain ⟨v, hv, hp⟩ := h
    refine ⟨v, hv, ?_⟩
    simpa using hp

/-- C7: in every PolicyValidationResult produced by validate_request and by
validate_plan, allowed is false exactly when the violations list contains a
violation of severity ERROR or CRITICAL; WARNING violations and the entries
of the warnings list never make allowed false. -/
theorem c7_allowed_iff_no_blocking_violation (environment user_id : String)
    (task_id : Option TaskId) (business_justification : Bool) (hour weekday : Nat)
    (plan_rollback : Bool) (plan_risk_level env2 : String) :
    ((validate_request environment user_id task_id business_justification hour
          weekday).allowed = false ↔
       ∃ v ∈ (validate_request environment user_id task_id business_justification
           hour weekday).violations,
         v.severity = "ERROR" ∨ v.severity = "CRITICAL") ∧
    ((validate_plan plan_rollback plan_risk_level env2).allowed = false ↔
       ∃ v ∈ (validate_plan plan_rollback plan_risk_level env2).violations,
         v.severity = "ERROR" ∨ v.severity = "CRITICAL") := by
  exact ⟨allowed_false_iff _, allowed_false_iff _⟩

/-- C8: assess_risk is total by construction, and its overall score is the
weighted mean (2 envScore + 1.5 taskScore + 0.5 timingScore + 1 userScore)/5,
where an environment outside dev/staging/prod and a task outside the
task-risk table (including a missing task) each contribute the default
score 0.5. -/
theorem c8_score_weighted_mean (environment : String) (task_id : Option TaskId)
    (user_id : String) (hour : Nat) :
    (assess_risk environment task_id user_id hour).score =
      (2 * environment_risk environment + (3/2) * task_risk task_id +
       (1/2) * calculate_time_risk hour + 1 * calculate_user_risk user_id) / 5 ∧
    (environment ≠ "dev" → environment ≠ "staging" → environment ≠ "prod" →
       environment_risk environment = 1/2) ∧
    (∀ t : Option TaskId, t ≠ some TaskId.CANCEL_CASE →
       t ≠ some TaskId.CHANGE_CASE_STATUS → t ≠ some TaskId.RECONCILE_CASE_DATA →
       task_risk t = 1/2) := by
  refine ⟨?_, ?_, ?_⟩
  · show ((environment_risk environment * 2 +
        (task_risk task_id * (3/2) + (calculate_time_risk hour * (1/2) +
          (calculate_user_risk user_id * 1 + 0)))) /
        (2 + (3/2 + (1/2 + (1 + 0))))) = _
    ring_nf
  · intro h1 h2 h3
    simp [environment_risk, h1, h2, h3]
  · intro t ht1 ht2 ht3
    rcases t with _ | tt
    · rfl
    · cases tt <;> simp_all [task_risk]

/-- C8 witness: the weighted-mean formula and both fallback defaults at the
unknown environment weird and the untabulated task CANCEL_ORDER. -/
theorem c8_score_weighted_mean_witness :
    (assess_risk "weird" (some TaskId.CANCEL_ORDER) "bob" 3).score =
      (2 * environment_risk "weird" + (3/2) * task_risk (some TaskId.CANCEL_ORDER) +
       (1/2) * calculate_time_risk 3 + 1 * calculate_user_risk "bob") / 5 ∧
    environment_risk "weird" = 1/2 ∧
    task_risk (some TaskId.CANCEL_ORDER) = 1/2 := by
  have h := c8_score_weighted_mean "weird" (some TaskId.CANCEL_ORDER) "bob" 3
  exact ⟨h.1, h.2.1 (by decide) (by decide) (by decide),
         h.2.2 (some TaskId.CANCEL_ORDER) (by decide) (by decide) (by decide)⟩

/-- C9: the score-to-level mapping is total on all rational scores and
partitions the line at the stated inclusive upper thresholds: at most 0.3 is
LOW, above 0.3 up to 0.6 is MEDIUM, above 0.6 up to 0.8 is HIGH, above 0.8
is CRITICAL; and it is monotone in the score with respect to the ordinal
order LOW < MEDIUM < HIGH < CRITICAL. -/
theorem c9_threshold_partition (s t : ℚ) :
    (score_to_risk_level s = RiskLevel.LOW ↔ s ≤ 3/10) ∧
    (score_to_risk_level s = RiskLevel.MEDIUM ↔ (3/10 < s ∧ s ≤ 3/5)) ∧
    (score_to_risk_level s = RiskLevel.HIGH ↔ (3/5 < s ∧ s ≤ 4/5)) ∧
    (score_to_risk_level s = RiskLevel.CRITICAL ↔ 4/5 < s) ∧
    (s ≤ t →
       riskLevelOrd (score_to_risk_level s) ≤ riskLevelOrd (score_to_risk_level t)) := by
  refine ⟨?_, ?_, ?_, ?_, ?_⟩
  · unfold score_to_risk_level
    split_ifs with h1 h2 h3 <;> simp_all <;> intros <;> linarith
  · unfold score_to_risk_level
    split_ifs with h1 h2 h3 <;> simp_all <;> intros <;> linarith
  · unfold score_to_risk_level
    split_ifs with h1 h2 h3 <;> simp_all <;> intros <;> linarith
  · unfold score_to_risk_level
    split_ifs with h1 h2 h3 <;> simp_all <;> intros <;> linarith
  · intro hst
    unfold score_to_risk_level
    split_ifs <;> simp [riskLevelOrd] <;> linarith

/-- C9 witness: the MEDIUM window at 0.5 and monotonicity from 0.5 to 0.7. -/
theorem c9_threshold_partition_witness :
    score_to_risk_level (1/2 : ℚ) = RiskLevel.MEDIUM ∧
    riskLevelOrd (score_to_risk_level (1/2 : ℚ)) ≤
      riskLevelOrd (score_to_risk_level (7/10 : ℚ)) := by
  refine ⟨(c9_threshold_partition (1/2 : ℚ) (7/10 : ℚ)).2.1.mpr (by norm_num),
          (c9_threshold_partition (1/2 : ℚ) (7/10 : ℚ)).2.2.2.2 (by norm_num)⟩

end OpsGuide
